import Mathlib

/-!
Shallow embedding of the PneumoScan web application (src/app.py,
src/utils/app.py, src/utils/pdf_report.py).

JSON dictionaries are modelled as association lists of string keys and
values; external effects (image decoding, the two Keras model calls, the
Groq chat completion, the filesystem, UUID generation and the clock) are
supplied by the request environment, so each HTTP handler becomes a pure
function from its environment and the process-wide `latest_analysis`
state to a response and a new state.  Python floats are modelled as
rationals; Python's `round(x, 2)` is round-half-to-even at two decimals.
-/

namespace PneumoScan

/-- A JSON-able value appearing in the app's dictionaries (strings or numbers). -/
inductive Val where
  | str (v : String)
  | num (v : ℚ)
deriving DecidableEq, Repr

/-- A Python dict as sent to `jsonify` / stored in `latest_analysis`:
an association list in the literal's key order. -/
abbrev Dict := List (String × Val)

/-- A Flask JSON response: body dict plus HTTP status (`jsonify` alone is 200). -/
structure Response where
  body : Dict
  status : ℕ
deriving DecidableEq, Repr

/-- Python `str.strip()`: drop leading and trailing whitespace. -/
def pyStrip (s : String) : String :=
  ⟨((s.data.dropWhile Char.isWhitespace).reverse.dropWhile Char.isWhitespace).reverse⟩

/-- Python `str.lower()` (ASCII case fold, as used on file extensions). -/
def pyLower (s : String) : String :=
  ⟨s.data.map Char.toLower⟩

/-- Python `filename.rsplit(".", 1)[1]` when a dot is present: the part of
the string after the last dot (the whole string when no dot occurs). -/
def rsplitLast (s : String) : String :=
  ⟨(s.data.reverse.takeWhile (fun c => c ≠ '.')).reverse⟩

/-- Constant `ALLOWED_EXTENSIONS` from src/app.py. -/
def ALLOWED_EXTENSIONS : List String := ["png", "jpg", "jpeg", "bmp", "webp"]

/-- Function `allowed_file` from src/app.py:
`"." in filename and filename.rsplit(".", 1)[1].lower() in ALLOWED_EXTENSIONS`. -/
def allowed_file (filename : String) : Bool :=
  filename.data.contains '.' && ALLOWED_EXTENSIONS.contains (pyLower (rsplitLast filename))

/-- Round a rational to an integer, ties to even: the rule Python's
`round` applies to the mantissa. -/
def roundHalfEven (q : ℚ) : ℤ :=
  if q - ⌊q⌋ < 1/2 then ⌊q⌋
  else if 1/2 < q - ⌊q⌋ then ⌊q⌋ + 1
  else if ⌊q⌋ % 2 = 0 then ⌊q⌋ else ⌊q⌋ + 1

/-- Python `round(x, 2)`: round to two decimal places. -/
def round2 (x : ℚ) : ℚ :=
  (roundHalfEven (x * 100) : ℚ) / 100

theorem roundHalfEven_close (q : ℚ) : |(roundHalfEven q : ℚ) - q| ≤ 1/2 := by
  have h1 : (⌊q⌋ : ℚ) ≤ q := Int.floor_le q
  have h2 : q < ⌊q⌋ + 1 := Int.lt_floor_add_one q
  unfold roundHalfEven
  split_ifs with ha hb hc <;> rw [abs_le] <;> constructor <;> push_cast <;> linarith

theorem round2_close (x : ℚ) : |round2 x - x| ≤ 1/200 := by
  have h := roundHalfEven_close (x * 100)
  rw [abs_le] at h ⊢
  unfold round2
  constructor <;> [linarith [h.1]; linarith [h.2]]

/-- Stand-in for the preprocessed numpy tensor produced by `preprocess_image`
(decoding, resizing and normalisation happen inside PIL/numpy; the handler
only passes the tensor on to the two models). -/
def Tensor : Type := List ℚ

/-- The uploaded multipart file part: a filename plus raw bytes.  The
handler's validation never inspects the bytes. -/
structure FileData where
  filename : String
  content : List ℕ
deriving DecidableEq, Repr

/-- The external world of one `/predict` request: the form fields, the file
part, the generated UUID hex, and the outcomes of the three external calls
(`preprocess_image`, `xray_model.predict`, `pneumonia_model.predict`).
A thrown Python exception is an `Except.error` (its text for the model
calls, whose message is interpolated into the 500 body). -/
structure PredictEnv where
  patient_name : String
  patient_age : String
  notes : String
  file : Option FileData
  uuid_hex : String
  preprocess_result : Except Unit Tensor
  xray_model : Tensor → Except String ℚ
  pneumonia_model : Tensor → Except String ℚ

/-- Constant `XRAY_THRESHOLD` from src/app.py. -/
def XRAY_THRESHOLD : ℚ := 1/2

def UPLOAD_ERROR_MSG : String :=
  "Please upload a valid image (png, jpg, jpeg, bmp, webp)."

def COULD_NOT_PROCESS_MSG : String :=
  "Could not process the uploaded file. Please upload a valid image."

def NOT_XRAY_MSG : String :=
  "This does not appear to be a chest X-ray. Please upload a valid chest X-ray image."

/-- Stage-2 label in src/app.py: `"PNEUMONIA" if pred > 0.5 else "NORMAL"`. -/
def main_label (pred : ℚ) : String :=
  if 1/2 < pred then "PNEUMONIA" else "NORMAL"

/-- Stage-2 confidence in src/app.py: `round(pred*100, 2)` on the PNEUMONIA
branch, `round((1-pred)*100, 2)` on the NORMAL branch. -/
def main_confidence (pred : ℚ) : ℚ :=
  if 1/2 < pred then round2 (pred * 100) else round2 ((1 - pred) * 100)

/-- Stage 2 of the `/predict` handler (src/app.py lines 114-149): given the
outcome of `pneumonia_model.predict`, format the result, overwrite
`latest_analysis`, and build the JSON response. -/
def stage2 (latest : Dict) (patient_name patient_age notes filename now : String)
    (res : Except String ℚ) : Response × Dict :=
  match res with
  | Except.error e =>
      (⟨[("error", Val.str ("Pneumonia prediction failed: " ++ e))], 500⟩, latest)
  | Except.ok pred =>
      let label := main_label pred
      let confidence := main_confidence pred
      let pneumonia_pct := round2 (pred * 100)
      let normal_pct := round2 ((1 - pred) * 100)
      let stored : Dict :=
        [("prediction", Val.str label),
         ("confidence", Val.num confidence),
         ("patient_name", Val.str (if patient_name = "" then "the patient" else patient_name)),
         ("pneumonia_prob", Val.num pneumonia_pct),
         ("normal_prob", Val.num normal_pct),
         ("timestamp", Val.str now)]
      (⟨[("prediction", Val.str label),
         ("confidence", Val.num confidence),
         ("pneumonia_prob", Val.num pneumonia_pct),
         ("normal_prob", Val.num normal_pct),
         ("image_filename", Val.str filename),
         ("patient_name", Val.str patient_name),
         ("patient_age", Val.str patient_age),
         ("notes", Val.str notes)], 200⟩, stored)

/-- The `/predict` handler of src/app.py as a function from the current
`latest_analysis` dict, the request environment and the formatted current
time to the response and the new `latest_analysis`.  Werkzeug's
`not file` is true when the part is missing or its filename is empty. -/
def predict (latest : Dict) (env : PredictEnv) (now : String) : Response × Dict :=
  let patient_name := pyStrip env.patient_name
  let patient_age := pyStrip env.patient_age
  let notes := pyStrip env.notes
  match env.file with
  | none => (⟨[("error", Val.str UPLOAD_ERROR_MSG)], 400⟩, latest)
  | some f =>
      if f.filename = "" ∨ allowed_file f.filename = false then
        (⟨[("error", Val.str UPLOAD_ERROR_MSG)], 400⟩, latest)
      else
        let ext := pyLower (rsplitLast f.filename)
        let filename := env.uuid_hex ++ "." ++ ext
        match env.preprocess_result with
        | Except.error _ =>
            (⟨[("prediction", Val.str "Invalid Image"),
               ("message", Val.str COULD_NOT_PROCESS_MSG)], 200⟩, latest)
        | Except.ok t =>
            match env.xray_model t with
            | Except.error e =>
                (⟨[("error", Val.str ("X-ray detection failed: " ++ e))], 500⟩, latest)
            | Except.ok s =>
                if s < XRAY_THRESHOLD then
                  (⟨[("prediction", Val.str "Invalid Image"),
                     ("message", Val.str NOT_XRAY_MSG)], 200⟩, latest)
                else
                  stage2 latest patient_name patient_age notes filename now
                    (env.pneumonia_model t)

/-- Rendering of a value inside a Python f-string.  Strings render as
themselves; the numeric rendering abstracts CPython's float repr (no claim
inspects the rendered digits). -/
def pyShow : Val → String
  | Val.str s => s
  | Val.num q => toString q.num ++ (if q.den = 1 then ".0" else "/" ++ toString q.den)

/-- Value of `latest_analysis.get(key)` interpolated into an f-string: a missing key
renders as Python's `None`. -/
def showOpt : Option Val → String
  | none => "None"
  | some v => pyShow v

def UNAVAILABLE_MSG : String :=
  "AI assistant is temporarily unavailable. Please try again later."

/-- The chat context block built from a non-empty `latest_analysis`. -/
def contextOf (latest : Dict) : String :=
  "Current Analysis Report:\n" ++
  "- Patient: " ++ showOpt (latest.lookup "patient_name") ++ "\n" ++
  "- Prediction: " ++ showOpt (latest.lookup "prediction") ++ "\n" ++
  "- Confidence: " ++ showOpt (latest.lookup "confidence") ++ "%\n" ++
  "- Pneumonia Probability: " ++ showOpt (latest.lookup "pneumonia_prob") ++ "%\n" ++
  "- Normal Probability: " ++ showOpt (latest.lookup "normal_prob") ++ "%\n" ++
  "- Analysis Time: " ++ showOpt (latest.lookup "timestamp") ++ "\n"

/-- The fixed system prompt of `/chat`, with the context block (or the
no-report placeholder) interpolated. -/
def systemPromptOf (latest : Dict) : String :=
  "You are PneumoBot, an expert AI medical assistant for lung health, " ++
  "built into the PneumoScan AI diagnostic platform.\n\n" ++
  (if latest = [] then "No analysis report is currently available.\n" else contextOf latest) ++
  "\n" ++
  "Your Rules:\n" ++
  "1. Answer questions about pneumonia, lung health, and the current report.\n" ++
  "2. Explain the AI prediction clearly to the user.\n" ++
  "3. If Prediction is PNEUMONIA, suggest consulting a pulmonologist immediately.\n" ++
  "4. Provide general advice on precautions (rest, fluids, isolation) if relevant.\n" ++
  "5. You may mention common medicine categories (e.g. antibiotics, antivirals) as " ++
  "general information if asked, but NEVER prescribe specific drugs or dosages.\n" ++
  "6. Always include a short disclaimer: \"I am an AI, not a doctor. Please consult a specialist.\"\n" ++
  "7. Keep answers concise (under 3-4 sentences) and empathetic.\n"

/-- The `/chat` handler of src/app.py.  `groq_client` is `none` when no API
key was configured; otherwise it is the external completion call taking the
system prompt and the user message and either returning the reply text or
throwing. -/
def chat (groq_client : Option (String → String → Except Unit String))
    (latest : Dict) (message : String) : Response :=
  match groq_client with
  | none => ⟨[("reply", Val.str UNAVAILABLE_MSG)], 200⟩
  | some complete =>
      let user_msg := pyStrip message
      if user_msg = "" then ⟨[("reply", Val.str "Please say something.")], 400⟩
      else
        match complete (systemPromptOf latest) user_msg with
        | Except.ok reply => ⟨[("reply", Val.str reply)], 200⟩
        | Except.error _ => ⟨[("reply", Val.str UNAVAILABLE_MSG)], 500⟩

/-- Model of `os.path.join` with the layout used here (no absolute second component). -/
def pathJoin (a b : String) : String := a ++ "/" ++ b

/-- Constant `UPLOAD_FOLDER`: the `uploads` directory under Flask's static folder. -/
def UPLOAD_FOLDER : String := "static/uploads"

/-- Python truthiness of a JSON value as used on `image_filename`,
`patient_name`, `patient_age` and `notes`. -/
def valTruthy : Val → Bool
  | Val.str s => s ≠ ""
  | Val.num q => q ≠ 0

/-- Model of `data.get(key, default)` on the parsed JSON body. -/
def getValD (data : Dict) (k : String) (dflt : Val) : Val :=
  (data.lookup k).getD dflt

/-- One flowable appended to the ReportLab `elements` list by
`generate_report` (styling-only arguments are dropped). -/
inductive PdfElement where
  | title (t : String)
  | subtitle (t : String)
  | hr
  | paragraph (t : String)
  | spacer
  | sectionHeader (t : String)
  | table (rows : List (List String))
  | chart (normal pneumonia : Val)
  | image (path : String)
  | unableToEmbed
  | footer (t : String)
deriving DecidableEq, Repr

/-- Function `generate_report` of src/utils/pdf_report.py as the list of flowables
built into the document.  `fs` is `os.path.exists`; `embed_ok` is whether
ReportLab's `Image(image_path, ...)` constructor succeeds on the file (its
failure is caught and replaced by the "Unable to embed image" note). -/
def generate_report (fs : String → Bool) (embed_ok : String → Bool)
    (patient_name patient_age notes prediction confidence pneumonia_prob normal_prob : Val)
    (image_path : Option String) (now : String) : List PdfElement :=
  [PdfElement.title "🫁 PneumoScan",
   PdfElement.subtitle "AI Diagnostic Report",
   PdfElement.hr,
   PdfElement.paragraph ("<b>Date &amp; Time:</b>  " ++ now),
   PdfElement.spacer,
   PdfElement.sectionHeader "Patient Information",
   PdfElement.table
     [["Patient Name", if valTruthy patient_name then pyShow patient_name else "N/A"],
      ["Age", if valTruthy patient_age then pyShow patient_age else "N/A"],
      ["Notes", if valTruthy notes then pyShow notes else "—"]],
   PdfElement.spacer,
   PdfElement.sectionHeader "Analysis Result",
   PdfElement.table
     [["Prediction", pyShow prediction],
      ["Confidence", pyShow confidence ++ "%"]],
   PdfElement.spacer,
   PdfElement.sectionHeader "Confidence Chart",
   PdfElement.chart normal_prob pneumonia_prob,
   PdfElement.spacer] ++
  (match image_path with
   | some p =>
       if fs p then
         [PdfElement.sectionHeader "Uploaded X-ray"] ++
         (if embed_ok p then [PdfElement.image p] else [PdfElement.unableToEmbed]) ++
         [PdfElement.spacer]
       else []
   | none => []) ++
  [PdfElement.hr,
   PdfElement.footer "Made with ❤️ by Aditya",
   PdfElement.footer "This report is generated by PneumoScan AI and is for informational purposes only."]

/-- The `/download-report` response: the streamed PDF (as its flowables),
the attachment name passed to `send_file`, and the HTTP status. -/
structure DownloadResponse where
  status : ℕ
  download_name : String
  as_attachment : Bool
  report_path : String
  pdf : List PdfElement
deriving DecidableEq, Repr

/-- The `/download-report` handler of src/app.py.  `data` is the parsed JSON
body; `fs` is `os.path.exists`; `uuid8` the 8-hex-digit report id. -/
def download_report (fs : String → Bool) (embed_ok : String → Bool)
    (uuid8 : String) (data : Dict) (now : String) : DownloadResponse :=
  let patient_name := getValD data "patient_name" (Val.str "N/A")
  let patient_age := getValD data "patient_age" (Val.str "N/A")
  let notes := getValD data "notes" (Val.str "")
  let prediction := getValD data "prediction" (Val.str "N/A")
  let confidence := getValD data "confidence" (Val.num 0)
  let pneumonia_prob := getValD data "pneumonia_prob" (Val.num 0)
  let normal_prob := getValD data "normal_prob" (Val.num 0)
  let image_filename := getValD data "image_filename" (Val.str "")
  let image_path0 :=
    if valTruthy image_filename then some (pathJoin UPLOAD_FOLDER (pyShow image_filename))
    else none
  let image_path :=
    match image_path0 with
    | some p => if fs p then some p else none
    | none => none
  let report_path := pathJoin UPLOAD_FOLDER ("report_" ++ uuid8 ++ ".pdf")
  { status := 200
    download_name := "PneumoScan_Report.pdf"
    as_attachment := true
    report_path := report_path
    pdf := generate_report fs embed_ok patient_name patient_age notes prediction
      confidence pneumonia_prob normal_prob image_path now }

/-- One `/predict` request applied to the `latest_analysis` slot: the state
transition of the process-wide global, dropping the response. -/
def predictStep (d : Dict) (req : PredictEnv × String) : Dict :=
  (predict d req.1 req.2).2

/-- The `latest_analysis` slot after a sequence of `/predict` requests,
starting from the initial `latest_analysis = {}` of src/app.py line 34. -/
def runPredicts (reqs : List (PredictEnv × String)) : Dict :=
  reqs.foldl predictStep []

/-- The stored slot carries a `prediction` key whose value is the string
`NORMAL` or `PNEUMONIA`. -/
def storedPredictionOK (d : Dict) : Bool :=
  match d.lookup "prediction" with
  | some (Val.str l) => l == "NORMAL" || l == "PNEUMONIA"
  | _ => false

/-- The stored slot carries a non-empty `patient_name` string. -/
def storedNameOK (d : Dict) : Bool :=
  match d.lookup "patient_name" with
  | some (Val.str n) => !(n == "")
  | _ => false

/-- Invariant of the `latest_analysis` slot: empty, or a stored analysis
with a NORMAL/PNEUMONIA prediction and a non-empty patient name. -/
def slotOK (d : Dict) : Bool :=
  d.isEmpty || (storedPredictionOK d && storedNameOK d)

/-- Label computation of the `/predict` handler in src/utils/app.py
(line 75): `"PNEUMONIA" if pneumonia_prob >= 0.5 else "NORMAL"`. -/
def utils_label (pneumonia_prob : ℚ) : String :=
  if 1/2 ≤ pneumonia_prob then "PNEUMONIA" else "NORMAL"

/-- Confidence computation of the `/predict` handler in src/utils/app.py
(line 76): `round(max(pneumonia_prob, normal_prob) * 100, 2)`. -/
def utils_confidence (pneumonia_prob normal_prob : ℚ) : ℚ :=
  round2 (max pneumonia_prob normal_prob * 100)

/-- src/utils/app.py lines 68-70, single-output model: `pneumonia_prob` is
the raw score and `normal_prob` its complement. -/
def utils_probs_single (pred0 : ℚ) : ℚ × ℚ :=
  (pred0, 1 - pred0)

/- ──────────────────────── Shared helper lemmas ──────────────────────── -/

/-- A file whose name passes `allowed_file` is neither falsy (empty name)
nor rejected by the validation test in `/predict`. -/
lemma not_rejected_of_allowed (f : FileData) (hall : allowed_file f.filename = true) :
    ¬ (f.filename = "" ∨ allowed_file f.filename = false) := by
  rintro (h | h)
  · rw [h] at hall
    exact absurd hall (by decide)
  · rw [hall] at h
    simp at h

/-- Handler `/predict` with no file part: the fixed 400 error, slot untouched. -/
lemma predict_file_none_eq (latest : Dict) (env : PredictEnv) (now : String)
    (h : env.file = none) :
    predict latest env now = (⟨[("error", Val.str UPLOAD_ERROR_MSG)], 400⟩, latest) := by
  simp [predict, h]

/-- Handler `/predict` with a falsy or not-allowed filename: the fixed 400 error. -/
lemma predict_rejected_eq (latest : Dict) (env : PredictEnv) (now : String) (f : FileData)
    (hf : env.file = some f)
    (hcond : f.filename = "" ∨ allowed_file f.filename = false) :
    predict latest env now = (⟨[("error", Val.str UPLOAD_ERROR_MSG)], 400⟩, latest) := by
  simp only [predict, hf]
  rw [if_pos hcond]

/-- Handler `/predict` when `preprocess_image` throws: the could-not-process
Invalid Image payload with default status 200. -/
lemma predict_preprocess_fail_eq (latest : Dict) (env : PredictEnv) (now : String) (f : FileData)
    (hf : env.file = some f)
    (hvalid : ¬ (f.filename = "" ∨ allowed_file f.filename = false))
    (hpre : env.preprocess_result = Except.error ()) :
    predict latest env now =
      (⟨[("prediction", Val.str "Invalid Image"),
         ("message", Val.str COULD_NOT_PROCESS_MSG)], 200⟩, latest) := by
  simp only [predict, hf, hpre]
  rw [if_neg hvalid]

/-- Handler `/predict` when the gate model throws: the 500 error with the
exception text. -/
lemma predict_xray_fail_eq (latest : Dict) (env : PredictEnv) (now : String) (f : FileData)
    (t : Tensor) (e : String) (hf : env.file = some f)
    (hvalid : ¬ (f.filename = "" ∨ allowed_file f.filename = false))
    (hpre : env.preprocess_result = Except.ok t)
    (hx : env.xray_model t = Except.error e) :
    predict latest env now =
      (⟨[("error", Val.str ("X-ray detection failed: " ++ e))], 500⟩, latest) := by
  simp only [predict, hf, hpre, hx]
  rw [if_neg hvalid]

/-- Handler `/predict` when the gate score falls below the threshold: the
not-an-X-ray Invalid Image payload, slot untouched. -/
lemma predict_gate_low_eq (latest : Dict) (env : PredictEnv) (now : String) (f : FileData)
    (t : Tensor) (s : ℚ) (hf : env.file = some f)
    (hvalid : ¬ (f.filename = "" ∨ allowed_file f.filename = false))
    (hpre : env.preprocess_result = Except.ok t)
    (hx : env.xray_model t = Except.ok s) (hs : s < XRAY_THRESHOLD) :
    predict latest env now =
      (⟨[("prediction", Val.str "Invalid Image"),
         ("message", Val.str NOT_XRAY_MSG)], 200⟩, latest) := by
  simp only [predict, hf, hpre, hx]
  rw [if_neg hvalid, if_pos hs]

/-- When validation, preprocessing and the gate all pass, `/predict` is
exactly stage 2 applied to the pneumonia model's output on the tensor. -/
lemma predict_stage2_run
    (latest : Dict) (env : PredictEnv) (now : String) (f : FileData) (t : Tensor) (s : ℚ)
    (hf : env.file = some f)
    (hvalid : ¬ (f.filename = "" ∨ allowed_file f.filename = false))
    (hpre : env.preprocess_result = Except.ok t)
    (hx : env.xray_model t = Except.ok s) (hs : ¬ s < XRAY_THRESHOLD) :
    predict latest env now =
      stage2 latest (pyStrip env.patient_name) (pyStrip env.patient_age) (pyStrip env.notes)
        (env.uuid_hex ++ "." ++ pyLower (rsplitLast f.filename)) now
        (env.pneumonia_model t) := by
  simp only [predict, hf, hpre, hx]
  rw [if_neg hvalid, if_neg hs]

/- ──────────────────────── Claim theorems ──────────────────────── -/

/-- C1: In the `/predict` handler, for every gate-model score `s` returned
by stage 1: if `s < 0.5` the response is the Invalid Image payload ("This
does not appear to be a chest X-ray"), stage 2 is not run (the result is
the same for every pneumonia model), and the latest-analysis slot is left
unchanged; if `s ≥ 0.5` the pneumonia classifier is run on the same
preprocessed tensor. -/
theorem predict_gate_threshold
    (latest : Dict) (env : PredictEnv) (now : String) (f : FileData) (t : Tensor) (s : ℚ)
    (hf : env.file = some f) (hall : allowed_file f.filename = true)
    (hpre : env.preprocess_result = Except.ok t)
    (hx : env.xray_model t = Except.ok s) :
    (s < 1/2 →
      predict latest env now =
        (⟨[("prediction", Val.str "Invalid Image"), ("message", Val.str NOT_XRAY_MSG)], 200⟩,
         latest) ∧
      ∀ g, predict latest { env with pneumonia_model := g } now = predict latest env now) ∧
    (1/2 ≤ s →
      predict latest env now =
        stage2 latest (pyStrip env.patient_name) (pyStrip env.patient_age) (pyStrip env.notes)
          (env.uuid_hex ++ "." ++ pyLower (rsplitLast f.filename)) now
          (env.pneumonia_model t)) := by
  have hne := not_rejected_of_allowed f hall
  constructor
  · intro hs
    have hlt : s < XRAY_THRESHOLD := hs
    constructor
    · exact predict_gate_low_eq latest env now f t s hf hne hpre hx hlt
    · intro g
      rw [predict_gate_low_eq latest { env with pneumonia_model := g } now f t s hf hne hpre hx hlt,
        predict_gate_low_eq latest env now f t s hf hne hpre hx hlt]
  · intro hs
    exact predict_stage2_run latest env now f t s hf hne hpre hx (not_lt.mpr hs)

/-- Concrete environment exercising the gate short-circuit of C1. -/
def envC1 : PredictEnv :=
  { patient_name := " Ann "
    patient_age := "42"
    notes := ""
    file := some ⟨"scan.PNG", [7, 7]⟩
    uuid_hex := "abc123"
    preprocess_result := Except.ok [1/2]
    xray_model := fun _ => Except.ok (1/4)
    pneumonia_model := fun _ => Except.ok (9/10) }

theorem predict_gate_threshold_witness :
    predict [] envC1 "2025-01-01 00:00:00" =
      (⟨[("prediction", Val.str "Invalid Image"), ("message", Val.str NOT_XRAY_MSG)], 200⟩,
       []) :=
  ((predict_gate_threshold [] envC1 "2025-01-01 00:00:00" ⟨"scan.PNG", [7, 7]⟩ [1/2] (1/4)
      rfl (by decide) rfl rfl).1 (by norm_num)).1

/-- C2: for every classifier score `p` in `[0,1]`, the stage-2 response
labels `PNEUMONIA` iff `p > 0.5` (`NORMAL` otherwise) and reports
confidence `round(max(p, 1-p) * 100, 2)`. -/
theorem stage2_label_and_confidence
    (latest : Dict) (pn pa nt fn now : String) (p : ℚ) (h0 : 0 ≤ p) (h1 : p ≤ 1) :
    ((stage2 latest pn pa nt fn now (Except.ok p)).1.body.lookup "prediction" =
        some (Val.str "PNEUMONIA") ↔ 1/2 < p) ∧
    (¬ 1/2 < p →
      (stage2 latest pn pa nt fn now (Except.ok p)).1.body.lookup "prediction" =
        some (Val.str "NORMAL")) ∧
    (stage2 latest pn pa nt fn now (Except.ok p)).1.body.lookup "confidence" =
      some (Val.num (round2 (max p (1 - p) * 100))) := by
  by_cases hc : 1/2 < p
  · have hmax : max p (1 - p) = p := max_eq_left (by linarith)
    simp [stage2, main_label, main_confidence, hc, hmax, List.lookup]
    intro h
    rw [one_div] at hc
    exact absurd h (not_le.mpr hc)
  · have hmax : max p (1 - p) = 1 - p := max_eq_right (by linarith)
    simp [stage2, main_label, main_confidence, hc, hmax, List.lookup]
    intro h
    rw [one_div] at hc
    exact absurd h hc

theorem stage2_label_and_confidence_witness :
    (0:ℚ) ≤ 9/10 ∧ (9/10:ℚ) ≤ 1 ∧
    ((stage2 [] "a" "b" "c" "x.png" "ts" (Except.ok (9/10))).1.body.lookup "prediction" =
      some (Val.str "PNEUMONIA")) :=
  ⟨by norm_num, by norm_num,
    (stage2_label_and_confidence [] "a" "b" "c" "x.png" "ts" (9/10)
      (by norm_num) (by norm_num)).1.mpr (by norm_num)⟩

/-- C5: for every classifier score `p` in `[0,1]`, the per-class
percentages reported by stage 2 are `round(p*100, 2)` and
`round((1-p)*100, 2)`, and their sum differs from 100 by at most 0.01. -/
theorem stage2_probs_sum_near_100
    (latest : Dict) (pn pa nt fn now : String) (p : ℚ) (h0 : 0 ≤ p) (h1 : p ≤ 1) :
    (stage2 latest pn pa nt fn now (Except.ok p)).1.body.lookup "pneumonia_prob" =
      some (Val.num (round2 (p * 100))) ∧
    (stage2 latest pn pa nt fn now (Except.ok p)).1.body.lookup "normal_prob" =
      some (Val.num (round2 ((1 - p) * 100))) ∧
    |round2 (p * 100) + round2 ((1 - p) * 100) - 100| ≤ 1/100 := by
  refine ⟨by simp [stage2, List.lookup], by simp [stage2, List.lookup], ?_⟩
  have ha := round2_close (p * 100)
  have hb := round2_close ((1 - p) * 100)
  rw [abs_le] at ha hb ⊢
  constructor <;> [nlinarith [ha.1, hb.1]; nlinarith [ha.2, hb.2]]

theorem stage2_probs_sum_near_100_witness :
    (0:ℚ) ≤ 1/3 ∧ (1/3:ℚ) ≤ 1 ∧
    |round2 ((1/3:ℚ) * 100) + round2 ((1 - 1/3 : ℚ) * 100) - 100| ≤ 1/100 :=
  ⟨by norm_num, by norm_num,
    (stage2_probs_sum_near_100 [] "a" "b" "c" "x.png" "ts" (1/3)
      (by norm_num) (by norm_num)).2.2⟩

/-- C3 counterexample: with the Groq backend not configured, `/chat` on an
empty message answers 200 with the fixed unavailable reply — not 400 as
claimed: the `groq_client` check precedes the empty-message check. -/
theorem chat_empty_message_no_backend :
    chat none [] "" = ⟨[("reply", Val.str UNAVAILABLE_MSG)], 200⟩ ∧
    ¬ (chat none [] "").status = 400 := by
  constructor
  · rfl
  · decide

/-- C3 (amended): the empty-message 400 applies only when the assistant
backend is configured; with the backend not configured every message —
empty, whitespace-only or not — yields the fixed unavailable reply with
status 200. -/
theorem chat_empty_and_disabled (latest : Dict) (message : String) :
    (∀ complete, pyStrip message = "" →
      chat (some complete) latest message =
        ⟨[("reply", Val.str "Please say something.")], 400⟩) ∧
    chat none latest message = ⟨[("reply", Val.str UNAVAILABLE_MSG)], 200⟩ := by
  constructor
  · intro complete h
    simp [chat, h]
  · rfl

theorem chat_empty_and_disabled_witness :
    chat (some (fun _ _ => Except.ok "hi")) [] "  " =
      ⟨[("reply", Val.str "Please say something.")], 400⟩ ∧
    chat none [] "hello" = ⟨[("reply", Val.str UNAVAILABLE_MSG)], 200⟩ :=
  ⟨(chat_empty_and_disabled [] "  ").1 (fun _ _ => Except.ok "hi") (by decide),
   (chat_empty_and_disabled [] "hello").2⟩

/-- Concrete successful request for the C4 counterexample. -/
def envC4 : PredictEnv :=
  { patient_name := "Bob"
    patient_age := "33"
    notes := "cough"
    file := some ⟨"xr.jpg", [0]⟩
    uuid_hex := "deadbeef"
    preprocess_result := Except.ok [1]
    xray_model := fun _ => Except.ok 1
    pneumonia_model := fun _ => Except.ok (3/4) }

/-- C4 counterexample: a successful `/predict` stores a slot with no
`patient_age`, `notes` or `image_filename` key — the stored dict holds
only six of the nine claimed fields. -/
theorem latest_analysis_missing_fields :
    (predict [] envC4 "2025-01-01 00:00:00").1.status = 200 ∧
    (predict [] envC4 "2025-01-01 00:00:00").2.lookup "prediction" =
      some (Val.str "PNEUMONIA") ∧
    ¬ "patient_age" ∈ (predict [] envC4 "2025-01-01 00:00:00").2.map Prod.fst ∧
    ¬ "notes" ∈ (predict [] envC4 "2025-01-01 00:00:00").2.map Prod.fst ∧
    ¬ "image_filename" ∈ (predict [] envC4 "2025-01-01 00:00:00").2.map Prod.fst := by
  have h := predict_stage2_run [] envC4 "2025-01-01 00:00:00" ⟨"xr.jpg", [0]⟩ [1] 1
    rfl (not_rejected_of_allowed _ (by decide)) rfl rfl (by norm_num [XRAY_THRESHOLD])
  rw [h]
  norm_num [stage2, main_label, main_confidence, envC4, List.lookup]
  decide

/-- C4 (amended): every successful `/predict` call overwrites the
latest-analysis slot (whatever it held before) with a record holding
exactly the fields prediction, confidence, patient_name, pneumonia_prob,
normal_prob and timestamp — patient_age, notes and image_filename are not
stored. -/
theorem predict_overwrites_slot
    (latest : Dict) (env : PredictEnv) (now : String) (f : FileData) (t : Tensor) (s p : ℚ)
    (hf : env.file = some f) (hall : allowed_file f.filename = true)
    (hpre : env.preprocess_result = Except.ok t)
    (hx : env.xray_model t = Except.ok s) (hs : 1/2 ≤ s)
    (hp : env.pneumonia_model t = Except.ok p) :
    (predict latest env now).2 =
      [("prediction", Val.str (main_label p)),
       ("confidence", Val.num (main_confidence p)),
       ("patient_name",
        Val.str (if pyStrip env.patient_name = "" then "the patient" else pyStrip env.patient_name)),
       ("pneumonia_prob", Val.num (round2 (p * 100))),
       ("normal_prob", Val.num (round2 ((1 - p) * 100))),
       ("timestamp", Val.str now)] := by
  rw [predict_stage2_run latest env now f t s hf (not_rejected_of_allowed f hall) hpre hx
    (not_lt.mpr hs), hp]
  simp [stage2]

theorem predict_overwrites_slot_witness :
    (predict [] envC4 "2025-01-01 00:00:00").2 =
      [("prediction", Val.str (main_label (3/4))),
       ("confidence", Val.num (main_confidence (3/4))),
       ("patient_name", Val.str "Bob"),
       ("pneumonia_prob", Val.num (round2 ((3/4) * 100))),
       ("normal_prob", Val.num (round2 ((1 - 3/4) * 100))),
       ("timestamp", Val.str "2025-01-01 00:00:00")] :=
  predict_overwrites_slot [] envC4 "2025-01-01 00:00:00" ⟨"xr.jpg", [0]⟩ [1] 1 (3/4)
    rfl (by decide) rfl rfl (by norm_num) rfl

/-- C6: `/predict` answers 400 with the fixed error message — leaving the
slot untouched — whenever the file part is absent or the filename's
extension (the part after the last dot, lowercased) is not in
{png, jpg, jpeg, bmp, webp}; a dot-free filename is rejected, and the
file's content plays no role (the hypothesis only constrains the name). -/
theorem predict_rejects_bad_upload
    (latest : Dict) (env : PredictEnv) (now : String)
    (h : env.file = none ∨ ∃ f, env.file = some f ∧
      (ALLOWED_EXTENSIONS.contains (pyLower (rsplitLast f.filename)) = false ∨
       f.filename.data.contains '.' = false)) :
    predict latest env now = (⟨[("error", Val.str UPLOAD_ERROR_MSG)], 400⟩, latest) := by
  rcases h with h | ⟨f, hf, hbad⟩
  · simp [predict, h]
  · have hba : allowed_file f.filename = false := by
      unfold allowed_file
      rcases hbad with hb | hb <;> simp at hb <;> simp [hb]
    simp only [predict, hf]
    rw [if_pos (Or.inr hba)]

/-- Concrete request with a disallowed `.txt` extension for C6. -/
def envC6 : PredictEnv :=
  { patient_name := ""
    patient_age := ""
    notes := ""
    file := some ⟨"notes.txt", [104, 105]⟩
    uuid_hex := "cafe"
    preprocess_result := Except.ok []
    xray_model := fun _ => Except.ok 1
    pneumonia_model := fun _ => Except.ok 1 }

theorem predict_rejects_bad_upload_witness :
    predict [] envC6 "2025-01-01 00:00:00" =
      (⟨[("error", Val.str UPLOAD_ERROR_MSG)], 400⟩, []) :=
  predict_rejects_bad_upload [] envC6 "2025-01-01 00:00:00"
    (Or.inr ⟨⟨"notes.txt", [104, 105]⟩, rfl, Or.inl (by decide)⟩)

/-- C7: an upload with an allowed extension whose preprocessing throws
(corrupt/undecodable image) gets a 200 response carrying prediction
"Invalid Image" and the could-not-process message — never a 500 — and the
slot is untouched. -/
theorem predict_invalid_on_preprocess_failure
    (latest : Dict) (env : PredictEnv) (now : String) (f : FileData)
    (hf : env.file = some f) (hall : allowed_file f.filename = true)
    (hpre : env.preprocess_result = Except.error ()) :
    predict latest env now =
      (⟨[("prediction", Val.str "Invalid Image"),
         ("message", Val.str COULD_NOT_PROCESS_MSG)], 200⟩, latest) := by
  simp only [predict, hf, hpre]
  rw [if_neg (not_rejected_of_allowed f hall)]

/-- Concrete request whose decode fails for C7. -/
def envC7 : PredictEnv :=
  { patient_name := ""
    patient_age := ""
    notes := ""
    file := some ⟨"broken.jpeg", [255, 0]⟩
    uuid_hex := "beef"
    preprocess_result := Except.error ()
    xray_model := fun _ => Except.ok 1
    pneumonia_model := fun _ => Except.ok 1 }

theorem predict_invalid_on_preprocess_failure_witness :
    predict [] envC7 "2025-01-01 00:00:00" =
      (⟨[("prediction", Val.str "Invalid Image"),
         ("message", Val.str COULD_NOT_PROCESS_MSG)], 200⟩, []) :=
  predict_invalid_on_preprocess_failure [] envC7 "2025-01-01 00:00:00"
    ⟨"broken.jpeg", [255, 0]⟩ rfl (by decide) rfl

/-- C8: `/download-report` always answers 200 with a PDF attachment named
`PneumoScan_Report.pdf`; the uploaded-image section appears in the PDF iff
`image_filename` is non-empty and the corresponding file exists on disk,
and when ReportLab can read that file the image itself appears under the
same condition; otherwise the section is omitted and the report is still
generated. -/
theorem download_report_contract
    (fs embed_ok : String → Bool) (uuid8 : String) (data : Dict) (now : String) (fn : String)
    (hfn : data.lookup "image_filename" = some (Val.str fn) ∨
           (data.lookup "image_filename" = none ∧ fn = "")) :
    (download_report fs embed_ok uuid8 data now).status = 200 ∧
    (download_report fs embed_ok uuid8 data now).download_name = "PneumoScan_Report.pdf" ∧
    (download_report fs embed_ok uuid8 data now).as_attachment = true ∧
    (PdfElement.sectionHeader "Uploaded X-ray" ∈ (download_report fs embed_ok uuid8 data now).pdf ↔
      (fn ≠ "" ∧ fs (pathJoin UPLOAD_FOLDER fn) = true)) ∧
    (embed_ok (pathJoin UPLOAD_FOLDER fn) = true →
      (PdfElement.image (pathJoin UPLOAD_FOLDER fn) ∈
          (download_report fs embed_ok uuid8 data now).pdf ↔
        (fn ≠ "" ∧ fs (pathJoin UPLOAD_FOLDER fn) = true))) := by
  have hval : getValD data "image_filename" (Val.str "") = Val.str fn := by
    rcases hfn with h | ⟨h, h2⟩
    · simp [getValD, h]
    · simp [getValD, h, h2]
  refine ⟨rfl, rfl, rfl, ?_, ?_⟩ <;> by_cases h0 : fn = ""
  · subst h0
    simp [download_report, generate_report, hval, valTruthy]
  · by_cases hfs : fs (pathJoin UPLOAD_FOLDER fn) = true
    · simp [download_report, generate_report, hval, valTruthy, h0, hfs, pyShow]
    · simp [download_report, generate_report, hval, valTruthy, h0, hfs, pyShow]
  · subst h0
    simp [download_report, generate_report, hval, valTruthy]
  · intro hem
    by_cases hfs : fs (pathJoin UPLOAD_FOLDER fn) = true
    · simp [download_report, generate_report, hval, valTruthy, h0, hfs, hem, pyShow]
    · simp [download_report, generate_report, hval, valTruthy, h0, hfs, pyShow]

theorem download_report_contract_witness :
    (download_report (fun _ => false) (fun _ => true) "ab12cd34"
        [("prediction", Val.str "NORMAL"), ("image_filename", Val.str "x.png")]
        "2025-01-01").status = 200 ∧
    ¬ PdfElement.sectionHeader "Uploaded X-ray" ∈
        (download_report (fun _ => false) (fun _ => true) "ab12cd34"
          [("prediction", Val.str "NORMAL"), ("image_filename", Val.str "x.png")]
          "2025-01-01").pdf :=
  have h := download_report_contract (fun _ => false) (fun _ => true) "ab12cd34"
    [("prediction", Val.str "NORMAL"), ("image_filename", Val.str "x.png")]
    "2025-01-01" "x.png" (Or.inl (by decide))
  ⟨h.1, fun hmem => by
    have := (h.2.2.2.1).mp hmem
    exact absurd this.2 (by decide)⟩

/-- Stage 2 preserves the slot invariant: on failure the slot is kept, on
success the stored record has a NORMAL/PNEUMONIA label and a patient name
defaulted to "the patient" when empty. -/
lemma slotOK_stage2 (d : Dict) (pn pa nt fn now : String) (res : Except String ℚ)
    (hd : slotOK d = true) : slotOK (stage2 d pn pa nt fn now res).2 = true := by
  cases res with
  | error e => simpa [stage2] using hd
  | ok p =>
    simp [stage2, slotOK, storedPredictionOK, storedNameOK, List.lookup, main_label]
    constructor
    · exact le_or_lt p 2⁻¹
    · split_ifs <;> simp_all

/-- Every `/predict` transition preserves the slot invariant. -/
lemma slotOK_predictStep (d : Dict) (env : PredictEnv) (now : String)
    (hd : slotOK d = true) : slotOK (predict d env now).2 = true := by
  cases hfc : env.file with
  | none =>
      rw [predict_file_none_eq d env now hfc]
      exact hd
  | some f =>
    by_cases hcond : (f.filename = "" ∨ allowed_file f.filename = false)
    · rw [predict_rejected_eq d env now f hfc hcond]
      exact hd
    · cases hpre : env.preprocess_result with
      | error e =>
          cases e
          rw [predict_preprocess_fail_eq d env now f hfc hcond hpre]
          exact hd
      | ok t =>
        cases hx : env.xray_model t with
        | error e =>
            rw [predict_xray_fail_eq d env now f t e hfc hcond hpre hx]
            exact hd
        | ok s =>
          by_cases hs : s < XRAY_THRESHOLD
          · rw [predict_gate_low_eq d env now f t s hfc hcond hpre hx hs]
            exact hd
          · rw [predict_stage2_run d env now f t s hfc hcond hpre hx hs]
            exact slotOK_stage2 d _ _ _ _ now (env.pneumonia_model t) hd

/-- C9: the latest-analysis slot starts empty, and every value ever stored
in it has a prediction in {NORMAL, PNEUMONIA} (Invalid Image is never
stored) and a non-empty patient name: an empty submitted name is stored as
"the patient", even though the `/predict` JSON response echoes the empty
string. -/
theorem latest_analysis_slot_invariant :
    (runPredicts [] = [] ∧ ∀ reqs, slotOK (runPredicts reqs) = true) ∧
    (∀ (latest : Dict) (env : PredictEnv) (now : String) (f : FileData) (t : Tensor) (s p : ℚ),
      env.file = some f → allowed_file f.filename = true →
      env.preprocess_result = Except.ok t → env.xray_model t = Except.ok s → 1/2 ≤ s →
      env.pneumonia_model t = Except.ok p → pyStrip env.patient_name = "" →
      (predict latest env now).2.lookup "patient_name" = some (Val.str "the patient") ∧
      (predict latest env now).1.body.lookup "patient_name" = some (Val.str "")) := by
  constructor
  · refine ⟨rfl, ?_⟩
    intro reqs
    have key : ∀ (l : List (PredictEnv × String)) (d : Dict), slotOK d = true →
        slotOK (List.foldl predictStep d l) = true := by
      intro l
      induction l with
      | nil => intro d hd; simpa using hd
      | cons a l ih =>
          intro d hd
          exact ih _ (slotOK_predictStep d a.1 a.2 hd)
    exact key reqs [] (by decide)
  · intro latest env now f t s p hf hall hpre hx hs hp hname
    rw [predict_stage2_run latest env now f t s hf (not_rejected_of_allowed f hall) hpre hx
      (not_lt.mpr hs), hp]
    simp [stage2, List.lookup, hname]

/-- Concrete request with a whitespace-only patient name for C9. -/
def envC9 : PredictEnv :=
  { patient_name := "   "
    patient_age := ""
    notes := ""
    file := some ⟨"c.png", [3]⟩
    uuid_hex := "77aa"
    preprocess_result := Except.ok [2]
    xray_model := fun _ => Except.ok 1
    pneumonia_model := fun _ => Except.ok (1/4) }

theorem latest_analysis_slot_invariant_witness :
    slotOK (runPredicts [(envC9, "t0")]) = true ∧
    (predict [] envC9 "t0").2.lookup "patient_name" = some (Val.str "the patient") :=
  ⟨latest_analysis_slot_invariant.1.2 [(envC9, "t0")],
   (latest_analysis_slot_invariant.2 [] envC9 "t0" ⟨"c.png", [3]⟩ [2] 1 (1/4)
      rfl (by decide) rfl rfl (by norm_num) rfl (by decide)).1⟩

/-- C10 counterexample: at the boundary score p = 0.5 the handler in
src/utils/app.py labels PNEUMONIA (`>= 0.5`) while stage 2 of
src/app.py labels NORMAL (`> 0.5`), so the two computations are not equal
at p = 0.5 as claimed. -/
theorem utils_main_label_boundary :
    utils_label (1/2) = "PNEUMONIA" ∧ main_label (1/2) = "NORMAL" ∧
    ¬ utils_label (1/2) = main_label (1/2) := by
  have h1 : utils_label (1/2) = "PNEUMONIA" := by norm_num [utils_label]
  have h2 : main_label (1/2) = "NORMAL" := by norm_num [main_label]
  refine ⟨h1, h2, ?_⟩
  rw [h1, h2]
  decide

/-- C10 (amended): for every single-output probability p in [0,1], the two
handlers compute the same confidence, and the same label except at the
boundary p = 0.5, where src/utils/app.py says PNEUMONIA and src/app.py
says NORMAL. -/
theorem utils_main_agree (p : ℚ) (h0 : 0 ≤ p) (h1 : p ≤ 1) :
    (p ≠ 1/2 → utils_label p = main_label p) ∧
    utils_confidence (utils_probs_single p).1 (utils_probs_single p).2 = main_confidence p := by
  constructor
  · intro hp
    unfold utils_label main_label
    rcases lt_trichotomy p (1/2) with h | h | h
    · rw [if_neg (not_le.mpr h), if_neg (not_lt.mpr h.le)]
    · exact absurd h hp
    · rw [if_pos h.le, if_pos h]
  · simp only [utils_confidence, utils_probs_single, main_confidence]
    by_cases hc : 1/2 < p
    · rw [if_pos hc, max_eq_left (by linarith)]
    · rw [if_neg hc, max_eq_right (by linarith [not_lt.mp hc])]

theorem utils_main_agree_witness :
    utils_label (3/4) = main_label (3/4) ∧
    utils_confidence (utils_probs_single (3/4)).1 (utils_probs_single (3/4)).2 =
      main_confidence (3/4) :=
  ⟨(utils_main_agree (3/4) (by norm_num) (by norm_num)).1 (by norm_num),
   (utils_main_agree (3/4) (by norm_num) (by norm_num)).2⟩

end PneumoScan
